import Mathlib

/-!
Verification of the dynamic SQL query construction and execution layer of
the big-dash repository (src/server/services/query-executor.ts and
src/server/services/schema-introspection.ts), shallowly embedded in Lean.

JavaScript objects used as value maps (`Record<string, unknown>`) are
modelled as association lists in insertion order, matching
`Object.entries` iteration order.  JavaScript values are modelled by the
opaque `JsValue` type; the compiler only ever inspects a value's nullness
(the `value === null` check), matching the source.  Async executor code is
modelled as a pure function from the outcomes of the driver calls (an
oracle) to a trace of pool/query events plus a result, with `try/finally`
translated as: the finalizer's events always follow the body's events.
-/

/-- Models a JavaScript runtime value as far as the query layer observes it:
the compiler checks `value === null` and otherwise treats values as opaque. -/
inductive JsValue
  | vnull
  | vstr (s : String)
  | vnum (n : Int)
  | vbool (b : Bool)
  deriving DecidableEq

/-- Models the `value === null` test of the source. -/
def JsValue.isNull : JsValue → Bool
  | .vnull => true
  | _ => false

/-- Models `identifier.replace(/"/g, '\\"')`: every double-quote character is
replaced by the two-character sequence backslash, double quote. -/
def escCharJs (c : Char) : List Char :=
  if c = '"' then ['\\', '"'] else [c]

/-- Models the global regex replacement on the whole string. -/
def jsReplaceQuotes (s : String) : String :=
  String.mk (s.data.flatMap escCharJs)

/-- Models `escapeIdentifier` from query-executor.ts:
wrap in double quotes after the regex replacement. -/
def escapeIdentifier (identifier : String) : String :=
  "\"" ++ jsReplaceQuotes identifier ++ "\""

/-- Models the loop body of `buildWhereClause`: walks the entries of the
`where` object accumulating condition strings and parameters, incrementing
the placeholder index only on non-null values. -/
def whereLoop : List (String × JsValue) → Nat → List String × List JsValue
  | [], _ => ([], [])
  | (k, v) :: rest, i =>
    if v.isNull then
      let r := whereLoop rest i
      ((escapeIdentifier k ++ " IS NULL") :: r.1, r.2)
    else
      let r := whereLoop rest (i + 1)
      ((escapeIdentifier k ++ " = $" ++ toString i) :: r.1, v :: r.2)

/-- Result of `buildWhereClause` in the source. -/
structure WhereResult where
  clause : String
  params : List JsValue
  deriving DecidableEq

/-- Models `buildWhereClause` from query-executor.ts. -/
def buildWhereClause (w : List (String × JsValue)) (startParamIndex : Nat) :
    WhereResult :=
  let r := whereLoop w startParamIndex
  { clause := if r.1.length > 0 then "WHERE " ++ String.intercalate " AND " r.1 else ""
    params := r.2 }

/-- Models the `"ASC" | "DESC"` union type of SelectOptions.orderBy. -/
inductive Direction
  | asc
  | desc
  deriving DecidableEq

/-- String form of a direction as interpolated into the SQL text. -/
def Direction.toStr : Direction → String
  | .asc => "ASC"
  | .desc => "DESC"

/-- Models `SelectOptions`: `whereList` models the optional `where` object
(absent or empty object both behave as the empty list), `orderBy` the list of
column/direction pairs, `limit`/`offset` the optional numbers. -/
structure SelectOptions where
  table : String
  columns : List String
  whereList : List (String × JsValue) := []
  orderBy : List (String × Direction) := []
  limit : Option Int := none
  offset : Option Int := none
  deriving DecidableEq

/-- Models `InsertOptions`. -/
structure InsertOptions where
  table : String
  data : List (String × JsValue)
  deriving DecidableEq

/-- Models `UpdateOptions`. -/
structure UpdateOptions where
  table : String
  data : List (String × JsValue)
  whereList : List (String × JsValue)
  deriving DecidableEq

/-- Models `DeleteOptions`. -/
structure DeleteOptions where
  table : String
  whereList : List (String × JsValue)
  deriving DecidableEq

/-- Models `QueryResult`: compiled SQL text plus ordered parameter list. -/
structure QueryResult where
  sql : String
  params : List JsValue
  deriving DecidableEq

/-- Models the `MAX_ROWS` constant of query-executor.ts. -/
def MAX_ROWS : Int := 1000

/-- Models `buildSelectQuery` from query-executor.ts.  The wildcard test is
`options.columns[0] === "*"`, i.e. only the first element is inspected; the
limit is `Math.min(options.limit ?? MAX_ROWS, MAX_ROWS)`; the offset is
interpolated as a literal only when supplied. -/
def buildSelectQuery (options : SelectOptions) : QueryResult :=
  let columns :=
    if options.columns.head? = some "*" then "*"
    else String.intercalate ", " (options.columns.map escapeIdentifier)
  let sql0 := "SELECT " ++ columns ++ " FROM " ++ escapeIdentifier options.table
  let wr := buildWhereClause options.whereList 1
  let sql1 := if options.whereList.length > 0 then sql0 ++ " " ++ wr.clause else sql0
  let params := if options.whereList.length > 0 then wr.params else []
  let sql2 :=
    if options.orderBy.length > 0 then
      sql1 ++ " ORDER BY " ++
        String.intercalate ", "
          (options.orderBy.map fun o => escapeIdentifier o.1 ++ " " ++ o.2.toStr)
    else sql1
  let limit := min (options.limit.getD MAX_ROWS) MAX_ROWS
  let sql3 := sql2 ++ " LIMIT " ++ toString limit
  let sql4 :=
    match options.offset with
    | some m => sql3 ++ " OFFSET " ++ toString m
    | none => sql3
  { sql := sql4, params := params }

/-- Models `buildInsertQuery` from query-executor.ts; the thrown `Error` is
modelled as `Except.error` carrying the message. -/
def buildInsertQuery (options : InsertOptions) : Except String QueryResult :=
  let entries := options.data
  if entries.length = 0 then
    Except.error "No data provided for insert"
  else
    let columns := String.intercalate ", " (entries.map fun e => escapeIdentifier e.1)
    let placeholders :=
      String.intercalate ", " ((List.range entries.length).map fun i => "$" ++ toString (i + 1))
    let params := entries.map Prod.snd
    Except.ok
      { sql := "INSERT INTO " ++ escapeIdentifier options.table ++ " (" ++ columns ++
          ") VALUES (" ++ placeholders ++ ") RETURNING *"
        params := params }

/-- Models `buildUpdateQuery` from query-executor.ts: SET placeholders are
numbered first, then the WHERE clause continues at `params.length + 1`. -/
def buildUpdateQuery (options : UpdateOptions) : Except String QueryResult :=
  if options.data.length = 0 then
    Except.error "No data provided for update"
  else if options.whereList.length = 0 then
    Except.error "WHERE clause required for update"
  else
    let setClauses :=
      options.data.enum.map fun p => escapeIdentifier p.2.1 ++ " = $" ++ toString (p.1 + 1)
    let params := options.data.map Prod.snd
    let wr := buildWhereClause options.whereList (params.length + 1)
    Except.ok
      { sql := "UPDATE " ++ escapeIdentifier options.table ++ " SET " ++
          String.intercalate ", " setClauses ++ " " ++ wr.clause ++ " RETURNING *"
        params := params ++ wr.params }

/-- Models `buildDeleteQuery` from query-executor.ts. -/
def buildDeleteQuery (options : DeleteOptions) : Except String QueryResult :=
  if options.whereList.length = 0 then
    Except.error "WHERE clause required for delete"
  else
    let wr := buildWhereClause options.whereList 1
    Except.ok
      { sql := "DELETE FROM " ++ escapeIdentifier options.table ++ " " ++ wr.clause ++
          " RETURNING *"
        params := wr.params }

/-- A database row, as decoded by the driver. -/
def Row := List (String × JsValue)

/-- Observable resource events of an executor or introspector call:
pool construction, a driver query (tagged with its SQL text or a short
label), and `pool.end()`. -/
inductive Ev
  | poolCreate
  | queryEv (tag : String)
  | poolEnd
  deriving DecidableEq

/-- Outcome of one `pool.query` call as the driver reports it: rows plus the
possibly-null rowCount. -/
structure DriverResult where
  rows : List Row
  rowCount : Option Int

/-- Models `SelectResult`. -/
structure SelectResult where
  rows : List Row
  rowCount : Int

/-- Models `InsertResult`; `result.rows[0]` is modelled by `head?`. -/
structure InsertResult where
  row : Option Row

/-- Models `UpdateResult`. -/
structure UpdateResult where
  rows : List Row
  rowCount : Int

/-- Models `DeleteResult`. -/
structure DeleteResult where
  rows : List Row
  rowCount : Int

/-- Models the `try body finally await pool.end()` shape shared by every
executor: the finalizer event runs after the body's events on every path,
and the body's outcome (success or error) is returned unchanged. -/
def withPool {α : Type} (body : List Ev × Except String α) :
    List Ev × Except String α :=
  ([Ev.poolCreate] ++ body.1 ++ [Ev.poolEnd], body.2)

/-- Models `executeSelect` from query-executor.ts, as a function of the
driver's answer to the single compiled query. -/
def executeSelect (driver : Except String DriverResult) (options : SelectOptions) :
    List Ev × Except String SelectResult :=
  let q := buildSelectQuery options
  withPool <|
    match driver with
    | Except.error e => ([Ev.queryEv q.sql], Except.error e)
    | Except.ok r => ([Ev.queryEv q.sql], Except.ok ⟨r.rows, r.rowCount.getD 0⟩)

/-- Models `executeInsert`: the compiler may throw inside the `try`, in which
case no query event occurs but the pool is still torn down. -/
def executeInsert (driver : Except String DriverResult) (options : InsertOptions) :
    List Ev × Except String InsertResult :=
  withPool <|
    match buildInsertQuery options with
    | Except.error e => ([], Except.error e)
    | Except.ok q =>
      match driver with
      | Except.error e => ([Ev.queryEv q.sql], Except.error e)
      | Except.ok r => ([Ev.queryEv q.sql], Except.ok ⟨r.rows.head?⟩)

/-- Models `executeUpdate`. -/
def executeUpdate (driver : Except String DriverResult) (options : UpdateOptions) :
    List Ev × Except String UpdateResult :=
  withPool <|
    match buildUpdateQuery options with
    | Except.error e => ([], Except.error e)
    | Except.ok q =>
      match driver with
      | Except.error e => ([Ev.queryEv q.sql], Except.error e)
      | Except.ok r => ([Ev.queryEv q.sql], Except.ok ⟨r.rows, r.rowCount.getD 0⟩)

/-- Models `executeDelete`. -/
def executeDelete (driver : Except String DriverResult) (options : DeleteOptions) :
    List Ev × Except String DeleteResult :=
  withPool <|
    match buildDeleteQuery options with
    | Except.error e => ([], Except.error e)
    | Except.ok q =>
      match driver with
      | Except.error e => ([Ev.queryEv q.sql], Except.error e)
      | Except.ok r => ([Ev.queryEv q.sql], Except.ok ⟨r.rows, r.rowCount.getD 0⟩)

/-- Models `ColumnInfo` from schema-introspection.ts. -/
structure ColumnInfo where
  name : String
  type : String
  nullable : Bool
  hasDefault : Bool
  defaultValue : Option String
  deriving DecidableEq

/-- Models `TableInfo`. -/
structure TableInfo where
  name : String
  columns : List ColumnInfo
  primaryKey : List String
  deriving DecidableEq

/-- Models `SchemaInfo`. -/
structure SchemaInfo where
  tables : List TableInfo
  deriving DecidableEq

/-- Driver oracle for `introspectPostgresSchema`: the outcome of the table
listing query and, per table name, of the column and primary-key queries. -/
structure IntroOracle where
  tablesQ : Except String (List String)
  columnsQ : String → Except String (List ColumnInfo)
  pkQ : String → Except String (List String)

/-- Models the `for (const row of tablesResult.rows)` loop of
`introspectPostgresSchema`: two queries per table, aborting the loop (and
propagating the error out of the `try` block) on the first failure. -/
def introspectLoop (o : IntroOracle) : List String → List Ev × Except String (List TableInfo)
  | [] => ([], Except.ok [])
  | t :: rest =>
    match o.columnsQ t with
    | Except.error e => ([Ev.queryEv "columns"], Except.error e)
    | Except.ok cols =>
      match o.pkQ t with
      | Except.error e => ([Ev.queryEv "columns", Ev.queryEv "pk"], Except.error e)
      | Except.ok pk =>
        let r := introspectLoop o rest
        (Ev.queryEv "columns" :: Ev.queryEv "pk" :: r.1,
          r.2.map fun ts => ⟨t, cols, pk⟩ :: ts)

/-- Models `introspectPostgresSchema` from schema-introspection.ts. -/
def introspectPostgresSchema (o : IntroOracle) :
    List Ev × Except String SchemaInfo :=
  withPool <|
    match o.tablesQ with
    | Except.error e => ([Ev.queryEv "tables"], Except.error e)
    | Except.ok names =>
      let r := introspectLoop o names
      (Ev.queryEv "tables" :: r.1, r.2.map fun ts => ⟨ts⟩)

/-- The exact-count SQL text built inside `getTableRowCount`:
the template literal interpolates the table name between plain double quotes
without any escaping. -/
def exactCountSql (tableName : String) : String :=
  "SELECT COUNT(*) as count FROM \"" ++ tableName ++ "\""

/-- Driver oracle for `getTableRowCount`: the parsed `estimate` field of the
first row of the catalog query (`none` models a missing row, defaulted to 0
by `?? "0"`), and likewise the parsed `count` field of the exact count. -/
structure RowCountOracle where
  estimateQ : Except String (Option Int)
  countQ : Except String (Option Int)

/-- Models `getTableRowCount` from schema-introspection.ts: fetch the
catalog estimate; when it is below 10000 run an exact `COUNT(*)` whose text
embeds the raw table name; otherwise return the estimate. -/
def getTableRowCount (o : RowCountOracle) (tableName : String) :
    List Ev × Except String Int :=
  withPool <|
    match o.estimateQ with
    | Except.error e => ([Ev.queryEv "estimate"], Except.error e)
    | Except.ok estRow =>
      let estimate := estRow.getD 0
      if estimate < 10000 then
        match o.countQ with
        | Except.error e =>
          ([Ev.queryEv "estimate", Ev.queryEv (exactCountSql tableName)], Except.error e)
        | Except.ok cntRow =>
          ([Ev.queryEv "estimate", Ev.queryEv (exactCountSql tableName)],
            Except.ok (cntRow.getD 0))
      else
        ([Ev.queryEv "estimate"], Except.ok estimate)

/-- Values of the non-null entries of a filter map, in entry order: the
parameter sequence the spec says a WHERE clause must contribute. -/
def nonNullValues (w : List (String × JsValue)) : List JsValue :=
  (w.filter fun e => !e.2.isNull).map Prod.snd

/-- Number of non-null entries of a filter map. -/
def nonNullCount (w : List (String × JsValue)) : Nat :=
  (w.filter fun e => !e.2.isNull).length

/-- The shape of a filter map: its keys together with the nullness of each
value, everything the compiled text is allowed to depend on. -/
def nullMask (w : List (String × JsValue)) : List (String × Bool) :=
  w.map fun e => (e.1, e.2.isNull)

/-- Spec-level description of the condition at position `p` of a WHERE
clause whose placeholders start at `start`: a null value yields `IS NULL`
with no placeholder, a non-null value yields a placeholder numbered
`start` plus the number of non-null entries strictly before position `p`. -/
def condAt (w : List (String × JsValue)) (start p : Nat) : Option String :=
  (w.get? p).map fun e =>
    if e.2.isNull then escapeIdentifier e.1 ++ " IS NULL"
    else escapeIdentifier e.1 ++ " = $" ++ toString (start + nonNullCount (w.take p))

/-- Modelled from the spec sentence of claim C2: wrap the identifier in
double quotes and double every embedded double-quote character. -/
def doubledQuoteEscape (s : String) : String :=
  "\"" ++ String.mk (s.data.flatMap fun c => if c = '"' then ['"', '"'] else [c]) ++ "\""

/-- Scanner deciding that every double-quote character of a character list
is immediately preceded by a backslash: a backslash-quote pair is consumed
together, a bare quote at the scan head is an unescaped quote. -/
def quotesEscaped : List Char → Bool
  | [] => true
  | [c] => if c = '"' then false else true
  | c1 :: c2 :: rest =>
    if c1 = '\\' then
      if c2 = '"' then quotesEscaped rest
      else quotesEscaped (c2 :: rest)
    else if c1 = '"' then false
    else quotesEscaped (c2 :: rest)

/-- Inverse of the backslash escaping: collapse every backslash-quote pair
back to a quote, leaving all other characters untouched. -/
def unescapeBQ : List Char → List Char
  | [] => []
  | [c] => [c]
  | c1 :: c2 :: rest =>
    if c1 = '\\' ∧ c2 = '"' then '"' :: unescapeBQ rest
    else c1 :: unescapeBQ (c2 :: rest)

/-- Decides whether `needle` is a prefix of `hay`, character by character. -/
def listStartsWith : List Char → List Char → Bool
  | [], _ => true
  | _ :: _, [] => false
  | a :: as, b :: bs => a = b && listStartsWith as bs

/-- Decides whether `needle` occurs contiguously anywhere in `hay`. -/
def listHasSub (needle : List Char) : List Char → Bool
  | [] => needle.isEmpty
  | c :: rest => listStartsWith needle (c :: rest) || listHasSub needle rest

/-- Decides whether the string `needle` occurs contiguously in `hay`. -/
def strHasSub (needle hay : String) : Bool :=
  listHasSub needle.data hay.data

/-- The OFFSET suffix of a compiled select, as a function of the requested
offset. -/
def offsetSuffix : Option Int → String
  | some m => " OFFSET " ++ toString m
  | none => ""

/-- The column-list fragment of a compiled select. -/
def columnsPart (o : SelectOptions) : String :=
  if o.columns.head? = some "*" then "*"
  else String.intercalate ", " (o.columns.map escapeIdentifier)

/-- The WHERE fragment of a compiled select, including its leading space,
empty when no filters were supplied. -/
def wherePart (o : SelectOptions) : String :=
  if o.whereList.length > 0 then " " ++ (buildWhereClause o.whereList 1).clause else ""

/-- The ORDER BY fragment of a compiled select, including its leading space,
empty when no ordering was supplied. -/
def orderPart (o : SelectOptions) : String :=
  if o.orderBy.length > 0 then
    " ORDER BY " ++
      String.intercalate ", "
        (o.orderBy.map fun x => escapeIdentifier x.1 ++ " " ++ x.2.toStr)
  else ""

/-- The SET clause fragments of a compiled update: the clause for the
assignment at position `p` carries placeholder number `p + 1`. -/
def setClausesSpec (d : List (String × JsValue)) : List String :=
  d.enum.map fun p => escapeIdentifier p.2.1 ++ " = $" ++ toString (p.1 + 1)

/-- Concrete row-count oracle sitting exactly at the 10000 threshold: the
catalog estimate is 10000 and the true count is 7. -/
def boundaryOracle : RowCountOracle :=
  { estimateQ := Except.ok (some 10000), countQ := Except.ok (some 7) }

/-- Concrete row-count oracle for a small table: the catalog estimate is 5
and the true count is 42. -/
def smallOracle : RowCountOracle :=
  { estimateQ := Except.ok (some 5), countQ := Except.ok (some 42) }

/-- Helper: a null entry does not change the non-null count. -/
lemma nonNullCount_cons_null {k : String} {v : JsValue} {l : List (String × JsValue)}
    (hv : v.isNull = true) : nonNullCount ((k, v) :: l) = nonNullCount l := by
  simp [nonNullCount, List.filter_cons, hv]

/-- Helper: a non-null entry adds one to the non-null count. -/
lemma nonNullCount_cons_notNull {k : String} {v : JsValue} {l : List (String × JsValue)}
    (hv : v.isNull = false) : nonNullCount ((k, v) :: l) = nonNullCount l + 1 := by
  simp [nonNullCount, List.filter_cons, hv]

/-- Helper: the parameter list accumulated by the WHERE loop is exactly the
sequence of non-null filter values, in entry order, whatever the starting
placeholder index. -/
lemma whereLoop_params : ∀ (w : List (String × JsValue)) (i : Nat),
    (whereLoop w i).2 = nonNullValues w := by
  intro w
  induction w with
  | nil => intro i; simp [whereLoop, nonNullValues]
  | cons e rest ih =>
    intro i
    obtain ⟨k, v⟩ := e
    by_cases hv : v.isNull
    · simp only [whereLoop, hv, if_true]
      simpa [nonNullValues, List.filter_cons, hv] using ih i
    · simp only [whereLoop, hv, if_false]
      simpa [nonNullValues, List.filter_cons, hv] using ih (i + 1)

/-- Helper: the WHERE loop emits one condition per filter entry. -/
lemma whereLoop_length : ∀ (w : List (String × JsValue)) (i : Nat),
    (whereLoop w i).1.length = w.length := by
  intro w
  induction w with
  | nil => intro i; simp [whereLoop]
  | cons e rest ih =>
    intro i
    obtain ⟨k, v⟩ := e
    by_cases hv : v.isNull <;> simp [whereLoop, hv, ih]

/-- Helper: the number of parameters the WHERE loop accumulates equals the
number of non-null entries. -/
lemma whereLoop_params_length (w : List (String × JsValue)) (i : Nat) :
    (whereLoop w i).2.length = nonNullCount w := by
  simp [whereLoop_params, nonNullValues, nonNullCount]

/-- Helper: skipping a null entry leaves every later condition unchanged. -/
lemma condAt_cons_null {k : String} {v : JsValue} {rest : List (String × JsValue)}
    {start n : Nat} (hv : v.isNull = true) :
    condAt ((k, v) :: rest) start (n + 1) = condAt rest start n := by
  simp [condAt, List.take_succ_cons, nonNullCount_cons_null hv]

/-- Helper: passing a non-null entry shifts the placeholder base by one. -/
lemma condAt_cons_notNull {k : String} {v : JsValue} {rest : List (String × JsValue)}
    {start n : Nat} (hv : v.isNull = false) :
    condAt ((k, v) :: rest) start (n + 1) = condAt rest (start + 1) n := by
  simp only [condAt, List.take_succ_cons, List.get?_cons_succ]
  cases h : rest.get? n with
  | none => rfl
  | some e =>
    simp only [Option.map_some', Option.some.injEq]
    rw [nonNullCount_cons_notNull hv]
    have harith : start + (nonNullCount (rest.take n) + 1) =
        start + 1 + nonNullCount (rest.take n) := by omega
    rw [harith]

/-- Helper: the condition at position `p` of the WHERE loop output is the
one `condAt` describes, so placeholder numbers are strictly sequential in
text order, starting at the loop's start index, skipping null entries. -/
lemma whereLoop_get? : ∀ (w : List (String × JsValue)) (start p : Nat),
    ((whereLoop w start).1).get? p = condAt w start p := by
  intro w
  induction w with
  | nil => intro start p; simp [whereLoop, condAt]
  | cons e rest ih =>
    intro start p
    obtain ⟨k, v⟩ := e
    cases p with
    | zero => by_cases hv : v.isNull <;> simp [whereLoop, condAt, hv, nonNullCount]
    | succ n =>
      by_cases hv : v.isNull
      · rw [condAt_cons_null hv, ← ih start n]
        simp [whereLoop, hv]
      · rw [condAt_cons_notNull (by simpa using hv), ← ih (start + 1) n]
        simp [whereLoop, hv]

/-- Helper: the length of a filter map is recoverable from its null mask. -/
lemma nullMask_length {w₁ w₂ : List (String × JsValue)}
    (h : nullMask w₁ = nullMask w₂) : w₁.length = w₂.length := by
  have := congrArg List.length h
  simpa [nullMask] using this

/-- Helper: the conditions the WHERE loop emits depend only on the keys and
the nullness of the values, never on the values themselves. -/
lemma whereLoop_mask : ∀ {w₁ w₂ : List (String × JsValue)} (i : Nat),
    nullMask w₁ = nullMask w₂ → (whereLoop w₁ i).1 = (whereLoop w₂ i).1 := by
  intro w₁
  induction w₁ with
  | nil =>
    intro w₂ i h
    cases w₂ with
    | nil => rfl
    | cons f r => simp [nullMask] at h
  | cons e rest ih =>
    intro w₂ i h
    cases w₂ with
    | nil => simp [nullMask] at h
    | cons f rest₂ =>
      obtain ⟨k, v⟩ := e
      obtain ⟨k₂, v₂⟩ := f
      simp only [nullMask, List.map_cons, List.cons.injEq, Prod.mk.injEq] at h
      obtain ⟨⟨hk, hn⟩, hrest⟩ := h
      subst hk
      have hr : (whereLoop rest i).1 = (whereLoop rest₂ i).1 :=
        ih i (by simpa [nullMask] using hrest)
      have hr1 : (whereLoop rest (i + 1)).1 = (whereLoop rest₂ (i + 1)).1 :=
        ih (i + 1) (by simpa [nullMask] using hrest)
      by_cases hv : v.isNull
      · have hv₂ : v₂.isNull = true := by rw [← hn]; simpa using hv
        simp [whereLoop, hv, hv₂, hr]
      · have hv₂ : v₂.isNull = false := by rw [← hn]; simpa using hv
        simp [whereLoop, hv, hv₂, hr1]

/-- Helper: the WHERE clause string depends only on the null mask. -/
lemma buildWhereClause_mask {w₁ w₂ : List (String × JsValue)} (i : Nat)
    (h : nullMask w₁ = nullMask w₂) :
    (buildWhereClause w₁ i).clause = (buildWhereClause w₂ i).clause := by
  simp [buildWhereClause, whereLoop_mask i h]

/-- Helper: mapping a key-and-index function over an enumerated association
list depends only on the key list. -/
lemma enumFrom_map_key {β γ : Type} (g : Nat → String → γ) :
    ∀ (n : Nat) (d₁ d₂ : List (String × β)), d₁.map Prod.fst = d₂.map Prod.fst →
      (d₁.enumFrom n).map (fun p => g p.1 p.2.1) =
        (d₂.enumFrom n).map (fun p => g p.1 p.2.1) := by
  intro n d₁
  induction d₁ generalizing n with
  | nil =>
    intro d₂ h
    cases d₂ with
    | nil => rfl
    | cons f r => simp at h
  | cons e rest ih =>
    intro d₂ h
    cases d₂ with
    | nil => simp at h
    | cons f rest₂ =>
      simp only [List.map_cons, List.cons.injEq] at h
      obtain ⟨hk, hrest⟩ := h
      simp [List.enumFrom, hk, ih (n + 1) rest₂ hrest]

/-- Helper: the compiled select text decomposes into column list, escaped
table name, optional WHERE and ORDER BY fragments, the LIMIT clause with the
capped limit, and the offset suffix. -/
lemma select_sql_decomp (o : SelectOptions) :
    (buildSelectQuery o).sql =
      "SELECT " ++ columnsPart o ++ " FROM " ++ escapeIdentifier o.table ++
        wherePart o ++ orderPart o ++ " LIMIT " ++
        toString (min (o.limit.getD 1000) 1000) ++ offsetSuffix o.offset := by
  rcases o with ⟨t, cols, w, ob, l, off⟩
  simp only [buildSelectQuery, columnsPart, wherePart, orderPart, offsetSuffix, MAX_ROWS]
  by_cases hw : w.length > 0 <;> by_cases hob : ob.length > 0 <;> cases off <;>
    simp [hw, hob, String.append_assoc, String.append_empty]

/-- Helper: the compiled select text depends only on the table, columns,
filter keys and nullness, ordering, limit and offset. -/
lemma select_sql_mask {o₁ o₂ : SelectOptions} (ht : o₁.table = o₂.table)
    (hc : o₁.columns = o₂.columns) (hw : nullMask o₁.whereList = nullMask o₂.whereList)
    (ho : o₁.orderBy = o₂.orderBy) (hl : o₁.limit = o₂.limit)
    (hoff : o₁.offset = o₂.offset) :
    (buildSelectQuery o₁).sql = (buildSelectQuery o₂).sql := by
  have h1 : columnsPart o₁ = columnsPart o₂ := by simp [columnsPart, hc]
  have h2 : wherePart o₁ = wherePart o₂ := by
    simp only [wherePart]
    rw [nullMask_length hw, buildWhereClause_mask 1 hw]
  have h3 : orderPart o₁ = orderPart o₂ := by simp [orderPart, ho]
  rw [select_sql_decomp, select_sql_decomp, h1, h2, h3, ht, hl, hoff]

/-- Helper: the parameters of a compiled select are exactly the non-null
filter values, in order. -/
lemma select_params (o : SelectOptions) :
    (buildSelectQuery o).params = nonNullValues o.whereList := by
  simp only [buildSelectQuery]
  by_cases h : o.whereList.length > 0
  · simp [h, buildWhereClause, whereLoop_params]
  · have hnil : o.whereList = [] := by
      cases hw : o.whereList with
      | nil => rfl
      | cons a l => rw [hw] at h; simp at h
    simp [h, hnil, nonNullValues]

/-- Helper: extracting keys first, the escaped column list of an insert
depends only on the keys. -/
lemma map_escape_keys {d₁ d₂ : List (String × JsValue)}
    (hd : d₁.map Prod.fst = d₂.map Prod.fst) :
    d₁.map (fun e => escapeIdentifier e.1) = d₂.map (fun e => escapeIdentifier e.1) := by
  have h1 : ∀ d : List (String × JsValue),
      d.map (fun e => escapeIdentifier e.1) = (d.map Prod.fst).map escapeIdentifier := by
    intro d; rw [List.map_map]; rfl
  rw [h1, h1, hd]

/-- Helper: the compiled insert text depends only on the table and the keys
of the values map, never on the values. -/
lemma insert_sql_mask (t : String) {d₁ d₂ : List (String × JsValue)}
    (hd : d₁.map Prod.fst = d₂.map Prod.fst) :
    (buildInsertQuery ⟨t, d₁⟩).map QueryResult.sql =
      (buildInsertQuery ⟨t, d₂⟩).map QueryResult.sql := by
  have hl : d₁.length = d₂.length := by
    have := congrArg List.length hd; simpa using this
  by_cases h0 : d₁.length = 0
  · have h0' : d₂.length = 0 := hl ▸ h0
    simp [buildInsertQuery, h0, h0']
  · have h0' : ¬d₂.length = 0 := hl ▸ h0
    simp [buildInsertQuery, h0, h0', map_escape_keys hd, hl, Except.map]

/-- Helper: the compiled update text depends only on the table, the keys of
the values map, and the keys and nullness of the filters map. -/
lemma update_sql_mask (t : String) {d₁ d₂ w₁ w₂ : List (String × JsValue)}
    (hd : d₁.map Prod.fst = d₂.map Prod.fst) (hw : nullMask w₁ = nullMask w₂) :
    (buildUpdateQuery ⟨t, d₁, w₁⟩).map QueryResult.sql =
      (buildUpdateQuery ⟨t, d₂, w₂⟩).map QueryResult.sql := by
  have hdl : d₁.length = d₂.length := by
    have := congrArg List.length hd; simpa using this
  have hwl : w₁.length = w₂.length := nullMask_length hw
  have henum : ∀ d : List (String × JsValue), d.enum = d.enumFrom 0 := fun d => rfl
  have hset : d₁.enum.map (fun p => escapeIdentifier p.2.1 ++ " = $" ++ toString (p.1 + 1)) =
      d₂.enum.map (fun p => escapeIdentifier p.2.1 ++ " = $" ++ toString (p.1 + 1)) := by
    rw [henum, henum]
    exact enumFrom_map_key (fun i k => escapeIdentifier k ++ " = $" ++ toString (i + 1)) 0 d₁ d₂ hd
  have hcl : (buildWhereClause w₁ (d₁.length + 1)).clause =
      (buildWhereClause w₂ (d₂.length + 1)).clause := by
    rw [hdl]
    exact buildWhereClause_mask _ hw
  by_cases h0 : d₁.length = 0
  · have h0' : d₂.length = 0 := hdl ▸ h0
    simp [buildUpdateQuery, h0, h0']
  · have h0' : ¬d₂.length = 0 := hdl ▸ h0
    by_cases h1 : w₁.length = 0
    · have h1' : w₂.length = 0 := hwl ▸ h1
      simp [buildUpdateQuery, h0, h0', h1, h1']
    · have h1' : ¬w₂.length = 0 := hwl ▸ h1
      simp [buildUpdateQuery, h0, h0', h1, h1', hset, hcl, Except.map]

/-- Helper: the compiled delete text depends only on the table and the keys
and nullness of the filters map. -/
lemma delete_sql_mask (t : String) {w₁ w₂ : List (String × JsValue)}
    (hw : nullMask w₁ = nullMask w₂) :
    (buildDeleteQuery ⟨t, w₁⟩).map QueryResult.sql =
      (buildDeleteQuery ⟨t, w₂⟩).map QueryResult.sql := by
  have hwl : w₁.length = w₂.length := nullMask_length hw
  by_cases h0 : w₁.length = 0
  · have h0' : w₂.length = 0 := hwl ▸ h0
    simp [buildDeleteQuery, h0, h0']
  · have h0' : ¬w₂.length = 0 := hwl ▸ h0
    simp [buildDeleteQuery, h0, h0', buildWhereClause_mask 1 hw, Except.map]

/-- Helper: the parameters of a successful insert are the values, in map
order. -/
lemma insert_params {t : String} {d : List (String × JsValue)} {r : QueryResult}
    (h : buildInsertQuery ⟨t, d⟩ = Except.ok r) : r.params = d.map Prod.snd := by
  by_cases h0 : d.length = 0
  · simp [buildInsertQuery, h0] at h
  · simp [buildInsertQuery, h0] at h
    rw [← h]

/-- Helper: the parameters of a successful update are the assignment values
followed by the non-null filter values. -/
lemma update_params {t : String} {d w : List (String × JsValue)} {r : QueryResult}
    (h : buildUpdateQuery ⟨t, d, w⟩ = Except.ok r) :
    r.params = d.map Prod.snd ++ nonNullValues w := by
  by_cases h0 : d.length = 0
  · simp [buildUpdateQuery, h0] at h
  · by_cases h1 : w.length = 0
    · simp [buildUpdateQuery, h0, h1] at h
    · simp [buildUpdateQuery, h0, h1] at h
      rw [← h]
      simp [buildWhereClause, whereLoop_params]

/-- Helper: the parameters of a successful delete are the non-null filter
values. -/
lemma delete_params {t : String} {w : List (String × JsValue)} {r : QueryResult}
    (h : buildDeleteQuery ⟨t, w⟩ = Except.ok r) : r.params = nonNullValues w := by
  by_cases h0 : w.length = 0
  · simp [buildDeleteQuery, h0] at h
  · simp [buildDeleteQuery, h0] at h
    rw [← h]
    simp [buildWhereClause, whereLoop_params]

/-- Claim C3: compiling an Insert with an empty values map, an Update with
an empty values map or an empty filters map, or a Delete with an empty
filters map yields the validation error before any SQL text is produced (the
error value carries no SQL and the compiler performs no I/O), and a compiled
Update/Delete/Insert always has non-empty filters respectively values. -/
theorem emptyMapValidationGuards :
    (∀ t : String, buildInsertQuery ⟨t, []⟩ = Except.error "No data provided for insert")
    ∧ (∀ (t : String) (w : List (String × JsValue)),
        buildUpdateQuery ⟨t, [], w⟩ = Except.error "No data provided for update")
    ∧ (∀ (t : String) (e : String × JsValue) (d : List (String × JsValue)),
        buildUpdateQuery ⟨t, e :: d, []⟩ = Except.error "WHERE clause required for update")
    ∧ (∀ t : String, buildDeleteQuery ⟨t, []⟩ = Except.error "WHERE clause required for delete")
    ∧ (∀ (t : String) (d w : List (String × JsValue)) (r : QueryResult),
        buildUpdateQuery ⟨t, d, w⟩ = Except.ok r → d ≠ [] ∧ w ≠ [])
    ∧ (∀ (t : String) (d : List (String × JsValue)) (r : QueryResult),
        buildInsertQuery ⟨t, d⟩ = Except.ok r → d ≠ [])
    ∧ (∀ (t : String) (w : List (String × JsValue)) (r : QueryResult),
        buildDeleteQuery ⟨t, w⟩ = Except.ok r → w ≠ []) := by
  refine ⟨fun t => rfl, fun t w => rfl, fun t e d => rfl, fun t => rfl, ?_, ?_, ?_⟩
  · intro t d w r h
    constructor
    · rintro rfl; simp [buildUpdateQuery] at h
    · rintro rfl
      by_cases hd : d.length = 0 <;> simp [buildUpdateQuery, hd] at h
  · intro t d r h
    rintro rfl; simp [buildInsertQuery] at h
  · intro t w r h
    rintro rfl; simp [buildDeleteQuery] at h

/-- Witness for C3: the guards fire on concrete empty maps, and a concrete
successful update really had non-empty values and filters. -/
theorem emptyMapValidationGuards_witness :
    buildInsertQuery ⟨"users", []⟩ = Except.error "No data provided for insert"
    ∧ ([("name", JsValue.vstr "Jane")] : List (String × JsValue)) ≠ []
    ∧ ([("id", JsValue.vnum 1)] : List (String × JsValue)) ≠ [] := by
  refine ⟨emptyMapValidationGuards.1 "users", ?_⟩
  have h := emptyMapValidationGuards.2.2.2.2.1 "users"
    [("name", JsValue.vstr "Jane")] [("id", JsValue.vnum 1)]
    ⟨"UPDATE \"users\" SET \"name\" = $1 WHERE \"id\" = $2 RETURNING *",
      [JsValue.vstr "Jane", JsValue.vnum 1]⟩ rfl
  exact h

/-- Claim C4: every compiled select ends in a LIMIT clause (followed only by
the offset suffix) whose value is the minimum of the requested limit (default
1000) and the 1000-row cap; the emitted limit never exceeds 1000, and a
requested limit of 2000 yields LIMIT 1000. -/
theorem selectLimitAlwaysCapped (o : SelectOptions) :
    (buildSelectQuery o).sql =
      ("SELECT " ++ columnsPart o ++ " FROM " ++ escapeIdentifier o.table ++
          wherePart o ++ orderPart o) ++
        " LIMIT " ++ toString (min (o.limit.getD 1000) 1000) ++ offsetSuffix o.offset
    ∧ min (o.limit.getD 1000) 1000 ≤ 1000
    ∧ (o.limit = some 2000 → min (o.limit.getD 1000) 1000 = 1000) := by
  refine ⟨select_sql_decomp o, min_le_right _ _, ?_⟩
  intro h; rw [h]; decide

/-- Witness for C4: requesting limit 2000 emits LIMIT 1000. -/
theorem selectLimitAlwaysCapped_witness :
    (buildSelectQuery ⟨"users", ["*"], [], [], some 2000, none⟩).sql =
      "SELECT * FROM \"users\" LIMIT 1000"
    ∧ min (((some 2000 : Option Int)).getD 1000) 1000 = 1000 := by
  have h := selectLimitAlwaysCapped ⟨"users", ["*"], [], [], some 2000, none⟩
  exact ⟨by rw [h.1]; decide, h.2.2 rfl⟩

/-- Claim C8: compilation is deterministic, equal operation descriptors
compile to byte-identical SQL text and identical parameter sequences for all
four builders. -/
theorem compilationDeterministic :
    ∀ (o₁ o₂ : SelectOptions) (i₁ i₂ : InsertOptions) (u₁ u₂ : UpdateOptions)
      (dl₁ dl₂ : DeleteOptions),
      o₁ = o₂ → i₁ = i₂ → u₁ = u₂ → dl₁ = dl₂ →
      buildSelectQuery o₁ = buildSelectQuery o₂
      ∧ buildInsertQuery i₁ = buildInsertQuery i₂
      ∧ buildUpdateQuery u₁ = buildUpdateQuery u₂
      ∧ buildDeleteQuery dl₁ = buildDeleteQuery dl₂ := by
  rintro o₁ o₂ i₁ i₂ u₁ u₂ dl₁ dl₂ rfl rfl rfl rfl
  exact ⟨rfl, rfl, rfl, rfl⟩

/-- Witness for C8: determinism instantiated at concrete descriptors. -/
theorem compilationDeterministic_witness :
    buildSelectQuery ⟨"users", ["id"], [], [], none, none⟩ =
      buildSelectQuery ⟨"users", ["id"], [], [], none, none⟩
    ∧ buildInsertQuery ⟨"users", [("name", JsValue.vstr "John")]⟩ =
      buildInsertQuery ⟨"users", [("name", JsValue.vstr "John")]⟩ :=
  have h := compilationDeterministic
    ⟨"users", ["id"], [], [], none, none⟩ ⟨"users", ["id"], [], [], none, none⟩
    ⟨"users", [("name", JsValue.vstr "John")]⟩ ⟨"users", [("name", JsValue.vstr "John")]⟩
    ⟨"users", [("a", JsValue.vnum 1)], [("b", JsValue.vnum 2)]⟩
    ⟨"users", [("a", JsValue.vnum 1)], [("b", JsValue.vnum 2)]⟩
    ⟨"users", [("id", JsValue.vnum 1)]⟩ ⟨"users", [("id", JsValue.vnum 1)]⟩
    rfl rfl rfl rfl
  ⟨h.1, h.2.1⟩

/-- Helper: merging the literal pieces around an empty column list. -/
lemma select_empty_literal (x : String) :
    "SELECT " ++ "" ++ " FROM " ++ x = "SELECT  FROM " ++ x := by
  have h : ("SELECT " ++ "" ++ " FROM ") = "SELECT  FROM " := by decide
  calc "SELECT " ++ "" ++ " FROM " ++ x
      = ("SELECT " ++ "" ++ " FROM ") ++ x := rfl
    _ = "SELECT  FROM " ++ x := by rw [h]

/-- Claim C10: the wildcard decision inspects only the first element of the
columns list, so any trailing columns after a leading "*" are ignored
entirely; and an empty columns list is not rejected but compiles to a SELECT
with an empty column list. -/
theorem wildcardFirstElementOnly :
    (∀ (t : String) (tail : List String) (w : List (String × JsValue))
        (ob : List (String × Direction)) (l off : Option Int),
        buildSelectQuery ⟨t, "*" :: tail, w, ob, l, off⟩ =
          buildSelectQuery ⟨t, ["*"], w, ob, l, off⟩)
    ∧ (∀ (t : String) (w : List (String × JsValue)) (ob : List (String × Direction))
        (l off : Option Int),
        ∃ rest, (buildSelectQuery ⟨t, [], w, ob, l, off⟩).sql = "SELECT  FROM " ++ rest) := by
  constructor
  · intro t tail w ob l off
    simp [buildSelectQuery]
  · intro t w ob l off
    have h := select_sql_decomp ⟨t, [], w, ob, l, off⟩
    have hc : columnsPart ⟨t, [], w, ob, l, off⟩ = "" := by
      simp [columnsPart, String.intercalate]
    rw [hc] at h
    refine ⟨escapeIdentifier t ++ wherePart ⟨t, [], w, ob, l, off⟩ ++
      orderPart ⟨t, [], w, ob, l, off⟩ ++ " LIMIT " ++
      toString (min (l.getD 1000) 1000) ++ offsetSuffix off, ?_⟩
    rw [h, ← select_empty_literal]
    simp [String.append_assoc]

/-- Claim C1: for every operation descriptor accepted by the compiler, the
compiled SQL text is a function of the value-free shape of the descriptor
alone (table, columns, map keys, value nullness, ordering, limit, offset),
so no supplied value is ever concatenated into the text; and the parameter
array consists exactly of the supplied values in placeholder order: the
non-null filter values for Select and Delete, the insert values for Insert,
and the assignment values followed by the non-null filter values for
Update. -/
theorem valuesOnlyAsParameters :
    (∀ o₁ o₂ : SelectOptions, o₁.table = o₂.table → o₁.columns = o₂.columns →
        nullMask o₁.whereList = nullMask o₂.whereList → o₁.orderBy = o₂.orderBy →
        o₁.limit = o₂.limit → o₁.offset = o₂.offset →
        (buildSelectQuery o₁).sql = (buildSelectQuery o₂).sql)
    ∧ (∀ o : SelectOptions, (buildSelectQuery o).params = nonNullValues o.whereList)
    ∧ (∀ (t : String) (d₁ d₂ : List (String × JsValue)),
        d₁.map Prod.fst = d₂.map Prod.fst →
        (buildInsertQuery ⟨t, d₁⟩).map QueryResult.sql =
          (buildInsertQuery ⟨t, d₂⟩).map QueryResult.sql)
    ∧ (∀ (t : String) (d : List (String × JsValue)) (r : QueryResult),
        buildInsertQuery ⟨t, d⟩ = Except.ok r → r.params = d.map Prod.snd)
    ∧ (∀ (t : String) (d₁ d₂ w₁ w₂ : List (String × JsValue)),
        d₁.map Prod.fst = d₂.map Prod.fst → nullMask w₁ = nullMask w₂ →
        (buildUpdateQuery ⟨t, d₁, w₁⟩).map QueryResult.sql =
          (buildUpdateQuery ⟨t, d₂, w₂⟩).map QueryResult.sql)
    ∧ (∀ (t : String) (d w : List (String × JsValue)) (r : QueryResult),
        buildUpdateQuery ⟨t, d, w⟩ = Except.ok r →
        r.params = d.map Prod.snd ++ nonNullValues w)
    ∧ (∀ (t : String) (w₁ w₂ : List (String × JsValue)), nullMask w₁ = nullMask w₂ →
        (buildDeleteQuery ⟨t, w₁⟩).map QueryResult.sql =
          (buildDeleteQuery ⟨t, w₂⟩).map QueryResult.sql)
    ∧ (∀ (t : String) (w : List (String × JsValue)) (r : QueryResult),
        buildDeleteQuery ⟨t, w⟩ = Except.ok r → r.params = nonNullValues w) :=
  ⟨fun _ _ => select_sql_mask, select_params,
    fun t _ _ => insert_sql_mask t, fun _ _ _ => insert_params,
    fun t _ _ _ _ => update_sql_mask t, fun _ _ _ _ => update_params,
    fun t _ _ => delete_sql_mask t, fun _ _ _ => delete_params⟩

/-- Witness for C1: two selects differing only in the (non-null) filter
value compile to the same text, and a compiled insert carries its value only
in the parameter array. -/
theorem valuesOnlyAsParameters_witness :
    (buildSelectQuery ⟨"users", ["id"], [("name", JsValue.vstr "alice")], [], none, none⟩).sql =
      (buildSelectQuery ⟨"users", ["id"], [("name", JsValue.vstr "bob; DROP TABLE users")], [], none, none⟩).sql
    ∧ (buildSelectQuery ⟨"users", ["id"], [("name", JsValue.vstr "alice")], [], none, none⟩).params =
      nonNullValues [("name", JsValue.vstr "alice")]
    ∧ ({ sql := "INSERT INTO \"users\" (\"name\") VALUES ($1) RETURNING *",
          params := [JsValue.vstr "secret"] } : QueryResult).params =
      [("name", JsValue.vstr "secret")].map Prod.snd := by
  refine ⟨valuesOnlyAsParameters.1 _ _ rfl rfl (by decide) rfl rfl rfl,
    valuesOnlyAsParameters.2.1 _,
    valuesOnlyAsParameters.2.2.2.1 "users" [("name", JsValue.vstr "secret")] _ rfl⟩

/-- Helper: the WHERE clause parameters are the non-null filter values,
whatever the start index. -/
lemma buildWhereClause_params (w : List (String × JsValue)) (k : Nat) :
    (buildWhereClause w k).params = nonNullValues w := by
  simp [buildWhereClause, whereLoop_params]

/-- Helper: the SET clause at position `p` assigns placeholder `p + 1`. -/
lemma setClausesSpec_get? (d : List (String × JsValue)) (p : Nat) :
    (setClausesSpec d).get? p =
      (d.get? p).map fun e => escapeIdentifier e.1 ++ " = $" ++ toString (p + 1) := by
  simp only [setClausesSpec, List.get?_map, List.get?_enum]
  cases d.get? p <;> simp

/-- Helper: the text of a successful update is SET clauses (placeholders
numbered from 1 in assignment order) followed by the WHERE clause whose
placeholders continue at the number of assignments plus one. -/
lemma update_sql_eq {t : String} {d w : List (String × JsValue)} {r : QueryResult}
    (h : buildUpdateQuery ⟨t, d, w⟩ = Except.ok r) :
    r.sql = "UPDATE " ++ escapeIdentifier t ++ " SET " ++
      String.intercalate ", " (setClausesSpec d) ++ " " ++
      (buildWhereClause w (d.length + 1)).clause ++ " RETURNING *" := by
  by_cases h0 : d.length = 0
  · simp [buildUpdateQuery, h0] at h
  · by_cases h1 : w.length = 0
    · simp [buildUpdateQuery, h0, h1] at h
    · simp [buildUpdateQuery, h0, h1] at h
      rw [← h]
      simp [setClausesSpec]

/-- Claim C5: placeholder numbering is strictly sequential in text order:
the condition at position `p` of a WHERE clause starting at `start` is
`IS NULL` (consuming nothing) for a null filter and otherwise carries
placeholder `start` plus the number of earlier non-null filters; the
parameter list is exactly the non-null filter values in order, one per
non-null filter; SET clauses are numbered 1.. in assignment order; Select
numbers its filters from 1; Update numbers values first, then filters
starting after them. -/
theorem placeholdersSequential :
    (∀ (w : List (String × JsValue)) (start p : Nat),
        ((whereLoop w start).1).get? p = condAt w start p)
    ∧ (∀ (w : List (String × JsValue)) (start : Nat),
        (whereLoop w start).2 = nonNullValues w
        ∧ (whereLoop w start).1.length = w.length
        ∧ (whereLoop w start).2.length = nonNullCount w)
    ∧ (∀ (d : List (String × JsValue)) (p : Nat),
        (setClausesSpec d).get? p =
          (d.get? p).map fun e => escapeIdentifier e.1 ++ " = $" ++ toString (p + 1))
    ∧ (∀ o : SelectOptions,
        (buildSelectQuery o).params = (buildWhereClause o.whereList 1).params)
    ∧ (∀ (t : String) (d w : List (String × JsValue)) (r : QueryResult),
        buildUpdateQuery ⟨t, d, w⟩ = Except.ok r →
        r.sql = "UPDATE " ++ escapeIdentifier t ++ " SET " ++
            String.intercalate ", " (setClausesSpec d) ++ " " ++
            (buildWhereClause w (d.length + 1)).clause ++ " RETURNING *"
        ∧ r.params = d.map Prod.snd ++ (buildWhereClause w (d.length + 1)).params)
    ∧ (∀ (t : String) (w : List (String × JsValue)) (r : QueryResult),
        buildDeleteQuery ⟨t, w⟩ = Except.ok r →
        r.params = (buildWhereClause w 1).params) := by
  refine ⟨whereLoop_get?,
    fun w start => ⟨whereLoop_params w start, whereLoop_length w start,
      whereLoop_params_length w start⟩,
    setClausesSpec_get?,
    fun o => by rw [select_params, buildWhereClause_params],
    fun t d w r h => ⟨update_sql_eq h, by rw [update_params h, buildWhereClause_params]⟩,
    fun t w r h => by rw [delete_params h, buildWhereClause_params]⟩

/-- Witness for C5: in a filter map whose first entry is null, the second
condition carries placeholder 1, and a concrete one-assignment update
numbers its filter placeholder 2. -/
theorem placeholdersSequential_witness :
    ((whereLoop [("deleted_at", JsValue.vnull), ("id", JsValue.vnum 7)] 1).1).get? 1 =
      some "\"id\" = $1"
    ∧ ({ sql := "UPDATE \"users\" SET \"name\" = $1 WHERE \"id\" = $2 RETURNING *",
          params := [JsValue.vstr "Jane", JsValue.vnum 1] } : QueryResult).params =
      [("name", JsValue.vstr "Jane")].map Prod.snd ++
        (buildWhereClause [("id", JsValue.vnum 1)]
          ([("name", JsValue.vstr "Jane")].length + 1)).params := by
  constructor
  · exact (placeholdersSequential.1
      [("deleted_at", JsValue.vnull), ("id", JsValue.vnum 7)] 1 1).trans (by decide)
  · exact (placeholdersSequential.2.2.2.2.1 "users" [("name", JsValue.vstr "Jane")]
      [("id", JsValue.vnum 1)] _ rfl).2

/-- Helper: the escaped character stream never starts with a bare quote. -/
lemma flatMap_escCharJs_head {l : List Char} {d : Char} {ds : List Char}
    (h : l.flatMap escCharJs = d :: ds) : d ≠ '"' := by
  cases l with
  | nil => simp at h
  | cons c r =>
    by_cases hc : c = '"'
    · subst hc
      simp [escCharJs] at h
      rw [← h.1]
      decide
    · simp [escCharJs, hc] at h
      rw [← h.1]
      exact hc

/-- Helper: escaping never produces an empty stream from a non-empty one. -/
lemma flatMap_escCharJs_nil {l : List Char} (h : l.flatMap escCharJs = []) : l = [] := by
  cases l with
  | nil => rfl
  | cons c r =>
    by_cases hc : c = '"' <;> simp [escCharJs, hc] at h

/-- Helper: in the escaped stream every double quote is immediately preceded
by a backslash. -/
lemma quotesEscaped_flatMap : ∀ l : List Char, quotesEscaped (l.flatMap escCharJs) = true := by
  intro l
  induction l with
  | nil => rfl
  | cons c r ih =>
    by_cases hc : c = '"'
    · subst hc
      simpa [escCharJs, quotesEscaped] using ih
    · have hfm : (c :: r).flatMap escCharJs = c :: r.flatMap escCharJs := by
        simp [escCharJs, hc]
      cases h : r.flatMap escCharJs with
      | nil => simp [hfm, h, quotesEscaped, hc]
      | cons d ds =>
        have hd : d ≠ '"' := flatMap_escCharJs_head h
        rw [h] at ih
        rw [hfm, h]
        by_cases hcb : c = '\\'
        · subst hcb
          simpa [quotesEscaped, hd] using ih
        · simpa [quotesEscaped, hcb, hc] using ih

/-- Helper: collapsing backslash-quote pairs recovers the original
identifier, so the escaping is faithful and injective. -/
lemma unescapeBQ_flatMap : ∀ l : List Char, unescapeBQ (l.flatMap escCharJs) = l := by
  intro l
  induction l with
  | nil => rfl
  | cons c r ih =>
    by_cases hc : c = '"'
    · subst hc
      simpa [escCharJs, unescapeBQ] using ih
    · cases h : r.flatMap escCharJs with
      | nil =>
        have hr : r = [] := flatMap_escCharJs_nil h
        subst hr
        simp [escCharJs, hc, unescapeBQ]
      | cons d ds =>
        have hd : d ≠ '"' := flatMap_escCharJs_head h
        have hcond : ¬(c = '\\' ∧ d = '"') := fun hx => hd hx.2
        have hfm : (c :: r).flatMap escCharJs = c :: r.flatMap escCharJs := by
          simp [escCharJs, hc]
        rw [h] at ih
        rw [hfm, h]
        simp only [unescapeBQ, hcond, if_false]
        rw [ih]

/-- Counterexample for C2: on the identifier a"b the compiler emits a
backslash before the embedded quote, not a doubled quote: the escaped form
and the select text differ from what quote-doubling would produce. -/
theorem identifierEscapingNotDoubled_cex :
    escapeIdentifier "a\"b" = "\"a\\\"b\""
    ∧ doubledQuoteEscape "a\"b" = "\"a\"\"b\""
    ∧ escapeIdentifier "a\"b" ≠ doubledQuoteEscape "a\"b"
    ∧ (buildSelectQuery ⟨"t", ["a\"b"], [], [], none, none⟩).sql =
      "SELECT \"a\\\"b\" FROM \"t\" LIMIT 1000"
    ∧ (buildSelectQuery ⟨"t", ["a\"b"], [], [], none, none⟩).sql ≠
      "SELECT \"a\"\"b\" FROM \"t\" LIMIT 1000" := by
  refine ⟨by decide, by decide, by decide, by decide, by decide⟩

/-- Claim C2 (amended): for every table or column name string the compiler
wraps the identifier in double quotes and replaces every embedded
double-quote character by a backslash followed by a double quote (not by a
doubled quote): in the emitted form every embedded quote is immediately
preceded by a backslash, and collapsing the backslash-quote pairs recovers
the identifier exactly. -/
theorem identifierEscapingBackslash (s : String) :
    (escapeIdentifier s).data = '"' :: (s.data.flatMap escCharJs ++ ['"'])
    ∧ quotesEscaped (s.data.flatMap escCharJs) = true
    ∧ unescapeBQ (s.data.flatMap escCharJs) = s.data := by
  refine ⟨?_, quotesEscaped_flatMap s.data, unescapeBQ_flatMap s.data⟩
  have hq : ("\"" : String).data = ['"'] := rfl
  have hj : (jsReplaceQuotes s).data = s.data.flatMap escCharJs := rfl
  show (("\"" ++ jsReplaceQuotes s) ++ "\"").data = _
  rw [String.data_append, String.data_append, hq, hj]
  simp

/-- Helper: the introspection loop only ever emits query events. -/
lemma introspectLoop_events (o : IntroOracle) :
    ∀ ts : List String, ∀ e ∈ (introspectLoop o ts).1, ∃ s, e = Ev.queryEv s := by
  intro ts
  induction ts with
  | nil => intro e he; simp [introspectLoop] at he
  | cons t rest ih =>
    intro e
    cases hc : o.columnsQ t with
    | error err =>
      intro he
      simp [introspectLoop, hc] at he
      exact ⟨"columns", he⟩
    | ok cols =>
      cases hp : o.pkQ t with
      | error err =>
        intro he
        simp [introspectLoop, hc, hp] at he
        rcases he with h | h
        · exact ⟨"columns", h⟩
        · exact ⟨"pk", h⟩
      | ok pk =>
        intro he
        simp [introspectLoop, hc, hp] at he
        rcases he with h | h | h
        · exact ⟨"columns", h⟩
        · exact ⟨"pk", h⟩
        · exact ih e h

/-- Claim C6: every pool opened by an executor or by the introspector is
torn down exactly once on every exit path: the event trace is always pool
creation, then query events only, then exactly one pool teardown as the very
last event, for success and failure outcomes alike, so on a failing query
the teardown is already in the trace when the error is returned. -/
theorem poolTornDownExactlyOnce :
    (∀ (driver : Except String DriverResult) (o : SelectOptions), ∃ mid,
        (executeSelect driver o).1 = Ev.poolCreate :: (mid ++ [Ev.poolEnd])
        ∧ Ev.poolEnd ∉ mid ∧ Ev.poolCreate ∉ mid)
    ∧ (∀ (driver : Except String DriverResult) (o : InsertOptions), ∃ mid,
        (executeInsert driver o).1 = Ev.poolCreate :: (mid ++ [Ev.poolEnd])
        ∧ Ev.poolEnd ∉ mid ∧ Ev.poolCreate ∉ mid)
    ∧ (∀ (driver : Except String DriverResult) (o : UpdateOptions), ∃ mid,
        (executeUpdate driver o).1 = Ev.poolCreate :: (mid ++ [Ev.poolEnd])
        ∧ Ev.poolEnd ∉ mid ∧ Ev.poolCreate ∉ mid)
    ∧ (∀ (driver : Except String DriverResult) (o : DeleteOptions), ∃ mid,
        (executeDelete driver o).1 = Ev.poolCreate :: (mid ++ [Ev.poolEnd])
        ∧ Ev.poolEnd ∉ mid ∧ Ev.poolCreate ∉ mid)
    ∧ (∀ o : IntroOracle, ∃ mid,
        (introspectPostgresSchema o).1 = Ev.poolCreate :: (mid ++ [Ev.poolEnd])
        ∧ Ev.poolEnd ∉ mid ∧ Ev.poolCreate ∉ mid)
    ∧ (∀ (o : RowCountOracle) (t : String), ∃ mid,
        (getTableRowCount o t).1 = Ev.poolCreate :: (mid ++ [Ev.poolEnd])
        ∧ Ev.poolEnd ∉ mid ∧ Ev.poolCreate ∉ mid) := by
  refine ⟨?_, ?_, ?_, ?_, ?_, ?_⟩
  · intro driver o
    cases driver <;>
      exact ⟨[Ev.queryEv (buildSelectQuery o).sql],
        by simp [executeSelect, withPool], by simp, by simp⟩
  · intro driver o
    cases hb : buildInsertQuery o with
    | error e => exact ⟨[], by simp [executeInsert, withPool, hb], by simp, by simp⟩
    | ok q =>
      cases driver <;>
        exact ⟨[Ev.queryEv q.sql], by simp [executeInsert, withPool, hb], by simp, by simp⟩
  · intro driver o
    cases hb : buildUpdateQuery o with
    | error e => exact ⟨[], by simp [executeUpdate, withPool, hb], by simp, by simp⟩
    | ok q =>
      cases driver <;>
        exact ⟨[Ev.queryEv q.sql], by simp [executeUpdate, withPool, hb], by simp, by simp⟩
  · intro driver o
    cases hb : buildDeleteQuery o with
    | error e => exact ⟨[], by simp [executeDelete, withPool, hb], by simp, by simp⟩
    | ok q =>
      cases driver <;>
        exact ⟨[Ev.queryEv q.sql], by simp [executeDelete, withPool, hb], by simp, by simp⟩
  · intro o
    cases htq : o.tablesQ with
    | error e =>
      exact ⟨[Ev.queryEv "tables"],
        by simp [introspectPostgresSchema, withPool, htq], by simp, by simp⟩
    | ok names =>
      have hev := introspectLoop_events o names
      refine ⟨Ev.queryEv "tables" :: (introspectLoop o names).1,
        by simp [introspectPostgresSchema, withPool, htq], ?_, ?_⟩
      · intro hmem
        rcases List.mem_cons.mp hmem with h | h
        · simp at h
        · obtain ⟨s, hs⟩ := hev _ h
          simp at hs
      · intro hmem
        rcases List.mem_cons.mp hmem with h | h
        · simp at h
        · obtain ⟨s, hs⟩ := hev _ h
          simp at hs
  · intro o t
    cases hq : o.estimateQ with
    | error e =>
      exact ⟨[Ev.queryEv "estimate"],
        by simp [getTableRowCount, withPool, hq], by simp, by simp⟩
    | ok estRow =>
      by_cases hlt : estRow.getD 0 < 10000
      · cases hcq : o.countQ with
        | error e =>
          exact ⟨[Ev.queryEv "estimate", Ev.queryEv (exactCountSql t)],
            by simp [getTableRowCount, withPool, hq, hlt, hcq], by simp, by simp⟩
        | ok cntRow =>
          exact ⟨[Ev.queryEv "estimate", Ev.queryEv (exactCountSql t)],
            by simp [getTableRowCount, withPool, hq, hlt, hcq], by simp, by simp⟩
      · exact ⟨[Ev.queryEv "estimate"],
          by simp [getTableRowCount, withPool, hq, hlt], by simp, by simp⟩

/-- Counterexample for C7: with a catalog estimate of exactly 10000 (which
does not exceed the threshold) and a true count of 7, the code returns the
estimate 10000 and never issues the exact COUNT query, while the claim
demands an exact count in this case. -/
theorem rowCountThresholdBoundary_cex :
    (getTableRowCount boundaryOracle "t").2 = Except.ok 10000
    ∧ Ev.queryEv (exactCountSql "t") ∉ (getTableRowCount boundaryOracle "t").1
    ∧ ¬((10000 : Int) > 10000)
    ∧ (10000 : Int) ≠ 7 := by
  refine ⟨rfl, by decide, by decide, by decide⟩

/-- Helper: the exact-count SQL text is never the estimate query tag. -/
lemma exactCountSql_ne_estimate (t : String) : exactCountSql t ≠ "estimate" := by
  intro h
  have hlen := congrArg String.length h
  simp only [exactCountSql, String.length_append] at hlen
  have h1 : ("SELECT COUNT(*) as count FROM \"" : String).length = 31 := rfl
  have h2 : ("\"" : String).length = 1 := rfl
  have h3 : ("estimate" : String).length = 8 := rfl
  rw [h1, h2, h3] at hlen
  omega

/-- Claim C7 (amended): the row-count estimator returns the catalog estimate
exactly when the estimate is at least the threshold of 10000 (never issuing
the exact COUNT query), and performs and returns an exact COUNT(*) exactly
when the estimate is strictly below 10000. -/
theorem rowCountThresholdGE (o : RowCountOracle) (t : String) :
    (∀ est, o.estimateQ = Except.ok est → 10000 ≤ est.getD 0 →
        (getTableRowCount o t).2 = Except.ok (est.getD 0)
        ∧ Ev.queryEv (exactCountSql t) ∉ (getTableRowCount o t).1)
    ∧ (∀ est, o.estimateQ = Except.ok est → est.getD 0 < 10000 →
        (getTableRowCount o t).2 = o.countQ.map (fun c => c.getD 0)
        ∧ Ev.queryEv (exactCountSql t) ∈ (getTableRowCount o t).1) := by
  constructor
  · intro est hq hge
    have hnlt : ¬(est.getD 0 < 10000) := not_lt.mpr hge
    constructor
    · simp [getTableRowCount, withPool, hq, hnlt]
    · simp [getTableRowCount, withPool, hq, hnlt, exactCountSql_ne_estimate t]
  · intro est hq hlt
    cases hcq : o.countQ with
    | error e =>
      constructor
      · simp [getTableRowCount, withPool, hq, hlt, hcq, Except.map]
      · simp [getTableRowCount, withPool, hq, hlt, hcq]
    | ok cntRow =>
      constructor
      · simp [getTableRowCount, withPool, hq, hlt, hcq, Except.map]
      · simp [getTableRowCount, withPool, hq, hlt, hcq]

/-- Witness for C7 (amended): at the boundary estimate 10000 the estimate is
returned with no exact count query; at a small estimate the exact count is
performed and returned. -/
theorem rowCountThresholdGE_witness :
    ((getTableRowCount boundaryOracle "t").2 = Except.ok 10000
      ∧ Ev.queryEv (exactCountSql "t") ∉ (getTableRowCount boundaryOracle "t").1)
    ∧ ((getTableRowCount smallOracle "t").2 =
        (smallOracle.countQ).map (fun c => c.getD 0)
      ∧ Ev.queryEv (exactCountSql "t") ∈ (getTableRowCount smallOracle "t").1) := by
  constructor
  · exact (rowCountThresholdGE boundaryOracle "t").1 (some 10000) rfl (by decide)
  · exact (rowCountThresholdGE smallOracle "t").2 (some 5) rfl (by decide)

/-- Claim C9: the exact-count SQL interpolates the caller-supplied table
name between plain double quotes without escaping: for the table name a"b
the text contains the name unescaped (and is sent to the driver as the count
query event), unlike the compiler-built select over the same table, whose
text does not contain the raw name and which routes the name through
escapeIdentifier. -/
theorem countSqlLeavesNameUnescaped :
    strHasSub "a\"b" (exactCountSql "a\"b") = true
    ∧ strHasSub "a\"b" ((buildSelectQuery ⟨"a\"b", ["*"], [], [], none, none⟩).sql) = false
    ∧ exactCountSql "a\"b" ≠ "SELECT COUNT(*) as count FROM " ++ escapeIdentifier "a\"b"
    ∧ Ev.queryEv (exactCountSql "a\"b") ∈ (getTableRowCount smallOracle "a\"b").1
    ∧ (∀ t : String, exactCountSql t = "SELECT COUNT(*) as count FROM \"" ++ t ++ "\"") :=
  ⟨by decide, by decide, by decide, by decide, fun t => rfl⟩
